import Mathlib

/-!
Shallow embedding of the Vagus on-ledger safety core (CosmWasm contracts in
src/wasm-contracts/cosmwasm) together with the scaling-limits hash of
src/gateway/crates/vagus-crypto.  Each contract's storage is a Lean structure,
each entry point a pure function threading the storage through Except: an
error result models the host's transaction revert, so the caller's state is
unchanged on error.  Machine integers are Nat; the only place the source's
width matters (u128 products in the brake) cannot overflow, as proved below.
-/

namespace Vagus

/-- ANSState from packages/vagus-spec: SAFE / DANGER / SHUTDOWN. -/
inductive ANSState where
  | SAFE
  | DANGER
  | SHUTDOWN
deriving DecidableEq, Repr

/-- VagusError from packages/vagus-spec (Std stands for the wrapped
cosmwasm StdError, whose payload the contracts never inspect). -/
inductive VagusError where
  | Std
  | StateChangeTooFrequent
  | InvalidToneValue
  | IntentExpired
  | InvalidPreState
  | NonceAlreadyUsed
  | TokenNotFound
  | TokenAlreadyRevoked
  | UnauthorizedRevocation
  | ANSBlocked
  | ANSLimitExceeded
  | UnauthorizedAttestor
  | InvalidEvidenceFormat
  | RateLimited
  | CircuitBreakerOpen
  | CBORHashMismatch
  | StateMismatch
  | TTLExpired
  | Unauthorized
  | InvalidInput
  | ContractPaused
deriving DecidableEq, Repr

/-- Shared constants from packages/vagus-spec. -/
def MAX_DURATION_MS : Nat := 30000

def MAX_ENERGY_J : Nat := 1000

def MIN_STATE_RESIDENCY : Nat := 60

def REFLEX_COOLDOWN : Nat := 30

/-- Guard from packages/vagus-spec. -/
structure Guard where
  scalingFactor : Nat
  allowed : Bool
deriving DecidableEq, Repr

/-- VagalToneIndicator from packages/vagus-spec. -/
structure VagalToneIndicator where
  value : Nat
  timestamp : Nat
deriving DecidableEq, Repr

/-- TokenMeta from packages/vagus-spec (Binary fields as byte lists). -/
structure TokenMeta where
  tokenId : Nat
  executorId : Nat
  actionId : List Nat
  scaledLimitsHash : List Nat
  issuedAt : Nat
  expiresAt : Nat
  revoked : Bool
  revokedAt : Nat
deriving DecidableEq, Repr

/-- AfferentEvidencePacket from packages/vagus-spec. -/
structure AfferentEvidencePacket where
  executorId : Nat
  stateRootSha256 : List Nat
  stateRootKeccak : List Nat
  metricsHashSha256 : List Nat
  metricsHashKeccak : List Nat
  timestamp : Nat
deriving DecidableEq, Repr

/-! ### ANS State Manager (contracts/ans_state_manager/src/lib.rs) -/

namespace AnsStateManager

/-- The Items the ans_state_manager contract stores. -/
structure Storage where
  currentState : ANSState
  currentTone : VagalToneIndicator
  lastStateChange : Nat
  minStateResidency : Nat
  safeThreshold : Nat
  dangerThreshold : Nat
deriving DecidableEq, Repr

/-- determine_state_with_hysteresis, translated clause for clause
(danger_threshold / 2 is integer division, as in Rust). -/
def determine_state_with_hysteresis (current : ANSState) (vti : Nat)
    (safe_threshold danger_threshold : Nat) : ANSState :=
  match current with
  | ANSState.SAFE =>
      if vti < danger_threshold then ANSState.DANGER else ANSState.SAFE
  | ANSState.DANGER =>
      if vti ≥ safe_threshold then ANSState.SAFE
      else if vti < danger_threshold / 2 then ANSState.SHUTDOWN
      else ANSState.DANGER
  | ANSState.SHUTDOWN =>
      if vti ≥ safe_threshold then ANSState.SAFE
      else if vti ≥ danger_threshold then ANSState.DANGER
      else ANSState.SHUTDOWN

/-- Conservativeness rank used by is_more_conservative. -/
def rank : ANSState → Nat
  | ANSState.SAFE => 0
  | ANSState.DANGER => 1
  | ANSState.SHUTDOWN => 2

/-- is_more_conservative: rank a > rank b. -/
def is_more_conservative (a b : ANSState) : Bool :=
  rank a > rank b

/-- execute_update_tone.  current_time is env.block.time.seconds(). -/
def execute_update_tone (st : Storage) (current_time : Nat) (vti : Nat)
    (suggested : ANSState) : Except VagusError Storage :=
  if vti > 10000 then
    Except.error VagusError.InvalidToneValue
  else if st.lastStateChange ≠ 0 ∧
      current_time < st.lastStateChange + st.minStateResidency then
    Except.error VagusError.StateChangeTooFrequent
  else
    let new_state := determine_state_with_hysteresis st.currentState vti
      st.safeThreshold st.dangerThreshold
    let final_state :=
      if is_more_conservative suggested new_state then suggested else new_state
    let state_changed := final_state ≠ st.currentState
    let st :=
      if state_changed then
        { st with currentState := final_state, lastStateChange := current_time }
      else st
    Except.ok { st with currentTone := ⟨vti, current_time⟩ }

/-- query_guard_for: scaling factor from the current state; allowed iff
the factor is positive. -/
def query_guard_for (st : Storage) : Guard :=
  let scaling_factor : Nat :=
    match st.currentState with
    | ANSState.SAFE => 10000
    | ANSState.DANGER => 5000
    | ANSState.SHUTDOWN => 0
  { scalingFactor := scaling_factor, allowed := scaling_factor > 0 }

end AnsStateManager

/-! ### Association-list storage maps (cw_storage_plus Map, save overwrites) -/

/-- Lookup in a storage map (Map.may_load). -/
def mapGet {κ α : Type} [DecidableEq κ] (m : List (κ × α)) (k : κ) : Option α :=
  match m with
  | [] => none
  | (k', v) :: t => if k' = k then some v else mapGet t k

/-- Overwriting insert (Map.save). -/
def mapPut {κ α : Type} [DecidableEq κ] (m : List (κ × α)) (k : κ) (v : α) :
    List (κ × α) :=
  match m with
  | [] => [(k, v)]
  | (k', v') :: t => if k' = k then (k, v) :: t else (k', v') :: mapPut t k v

/-! ### Capability Issuer (contracts/capability_issuer/src/lib.rs) -/

namespace CapabilityIssuer

/-- RateLimitConfig. -/
structure RateLimitConfig where
  window_size : Nat
  max_requests : Nat
deriving DecidableEq, Repr

/-- CircuitState. -/
inductive CircuitState where
  | Closed
  | Open
  | HalfOpen
deriving DecidableEq, Repr

/-- CircuitBreaker record. -/
structure CircuitBreaker where
  state : CircuitState
  failure_count : Nat
  last_failure_time : Nat
  success_count : Nat
  next_attempt_time : Nat
deriving DecidableEq, Repr

/-- The issuer contract's Items and Maps. -/
structure Storage where
  nextTokenId : Nat
  authorizedExecutors : List String
  reflexArc : Option String
  vagusDao : String
  tokens : List (String × TokenMeta)
  owners : List (String × String)
  ownedTokens : List ((String × String) × Unit)
  globalRateLimit : RateLimitConfig
  circuitBreakerThreshold : Nat
  circuitBreakerTimeout : Nat
  circuitBreakerRecovery : Nat
  rateLimitWindows : List (String × List Nat)
  circuitBreakers : List (String × CircuitBreaker)
  emergencyPaused : Bool
deriving DecidableEq, Repr

/-- A hex digit, lowercase, as hex::encode produces. -/
def hexDigit (n : Nat) : Char :=
  if n < 10 then Char.ofNat (48 + n) else Char.ofNat (87 + n)

/-- hex::encode over a byte list. -/
def hexEncode (bs : List Nat) : String :=
  String.mk (bs.flatMap (fun b => [hexDigit (b / 16), hexDigit (b % 16)]))

/-- The per-(executor, action) key built in execute_issue:
format executor_id, an underscore, then the hex of action_id. -/
def mkKey (executor_id : Nat) (action_id : List Nat) : String :=
  toString executor_id ++ "_" ++ hexEncode action_id

/-- The default breaker unwrap_or uses when the key is absent. -/
def defaultBreaker : CircuitBreaker :=
  { state := CircuitState.Closed, failure_count := 0, last_failure_time := 0,
    success_count := 0, next_attempt_time := 0 }

/-- check_circuit_breaker: result is the updated breaker map. -/
def check_circuit_breaker (cbs : List (String × CircuitBreaker)) (key : String)
    (current_time : Nat) :
    Except VagusError (List (String × CircuitBreaker)) :=
  let cb := (mapGet cbs key).getD defaultBreaker
  if cb.state = CircuitState.Open then
    if current_time < cb.next_attempt_time then
      Except.error VagusError.CircuitBreakerOpen
    else
      Except.ok (mapPut cbs key
        { cb with state := CircuitState.HalfOpen, success_count := 0 })
  else
    Except.ok cbs

/-- check_rate_limit: prune, test, append; result is the updated window map. -/
def check_rate_limit (rate_limit : RateLimitConfig)
    (ws : List (String × List Nat)) (key : String) (current_time : Nat) :
    Except VagusError (List (String × List Nat)) :=
  let windows := (mapGet ws key).getD []
  let window_start := current_time - rate_limit.window_size
  let windows := windows.filter (fun timestamp => timestamp > window_start)
  if windows.length ≥ rate_limit.max_requests then
    Except.error VagusError.RateLimited
  else
    Except.ok (mapPut ws key (windows ++ [current_time]))

/-- record_circuit_success. -/
def record_circuit_success (cbs : List (String × CircuitBreaker)) (key : String)
    (recovery_threshold : Nat) : List (String × CircuitBreaker) :=
  let cb := (mapGet cbs key).getD defaultBreaker
  let cb :=
    if cb.state = CircuitState.HalfOpen then
      let cb := { cb with success_count := cb.success_count + 1 }
      if cb.success_count ≥ recovery_threshold then
        { cb with
          state := CircuitState.Closed
          failure_count := 0
          success_count := 0 }
      else cb
    else if cb.state = CircuitState.Closed then
      { cb with failure_count := 0 }
    else cb
  mapPut cbs key cb

/-- execute_issue (the Issue fields the dispatcher does not drop).  The two
throttle helpers are fallible; an error aborts the whole transaction, so the
caller's storage is not threaded past it. -/
def execute_issue (st : Storage) (current_time : Nat) (sender : String)
    (executor_id : Nat) (action_id : List Nat) (not_before not_after : Nat)
    (planner : String) (scaled_limits_hash : List Nat) (expires_at : Nat) :
    Except VagusError Storage :=
  if sender ∉ st.authorizedExecutors then
    Except.error VagusError.Unauthorized
  else if current_time < not_before ∨ current_time > not_after then
    Except.error VagusError.IntentExpired
  else
    let key := mkKey executor_id action_id
    match check_circuit_breaker st.circuitBreakers key current_time with
    | Except.error e => Except.error e
    | Except.ok cbs =>
      match check_rate_limit st.globalRateLimit st.rateLimitWindows key
          current_time with
      | Except.error e => Except.error e
      | Except.ok ws =>
        let token_id_num := st.nextTokenId
        let token_id := toString token_id_num
        let token_meta : TokenMeta :=
          { tokenId := token_id_num, executorId := executor_id,
            actionId := action_id, scaledLimitsHash := scaled_limits_hash,
            issuedAt := current_time, expiresAt := expires_at,
            revoked := false, revokedAt := 0 }
        Except.ok { st with
          nextTokenId := token_id_num + 1,
          tokens := mapPut st.tokens token_id token_meta,
          owners := mapPut st.owners token_id planner,
          ownedTokens := mapPut st.ownedTokens (planner, token_id) (),
          circuitBreakers := record_circuit_success cbs key
            st.circuitBreakerRecovery,
          rateLimitWindows := ws }

/-- CapabilityRevocationReason. -/
inductive RevocationReason where
  | OWNER_REVOCATION
  | REFLEX_TRIGGER
  | EXPIRATION
deriving DecidableEq, Repr

/-- execute_revoke (TOKENS.load on a missing key surfaces the wrapped
storage error). -/
def execute_revoke (st : Storage) (current_time : Nat) (sender : String)
    (token_id : String) (_reason : RevocationReason) :
    Except VagusError Storage :=
  match mapGet st.tokens token_id with
  | none => Except.error VagusError.Std
  | some token =>
    if token.revoked then
      Except.error VagusError.TokenAlreadyRevoked
    else
      match mapGet st.owners token_id with
      | none => Except.error VagusError.Std
      | some owner =>
        let is_authorized := owner = sender ∨ st.reflexArc = some sender
        if ¬ is_authorized then
          Except.error VagusError.UnauthorizedRevocation
        else
          let token := { token with revoked := true, revokedAt := current_time }
          Except.ok { st with tokens := mapPut st.tokens token_id token }

/-- query_is_valid: present, not revoked, and expiresAt > now. -/
def query_is_valid (st : Storage) (current_time : Nat) (token_id : String) :
    Bool :=
  match mapGet st.tokens token_id with
  | none => false
  | some token => ¬ token.revoked ∧ token.expiresAt > current_time

/-- execute_set_reflex_arc (DAO-gated). -/
def execute_set_reflex_arc (st : Storage) (sender : String)
    (reflex_arc : String) : Except VagusError Storage :=
  if sender ≠ st.vagusDao then Except.error VagusError.Unauthorized
  else Except.ok { st with reflexArc := some reflex_arc }

/-- execute_set_rate_limit (DAO-gated). -/
def execute_set_rate_limit (st : Storage) (sender : String)
    (window_size max_requests : Nat) : Except VagusError Storage :=
  if sender ≠ st.vagusDao then Except.error VagusError.Unauthorized
  else Except.ok { st with globalRateLimit := ⟨window_size, max_requests⟩ }

/-- execute_set_circuit_breaker_params (DAO-gated). -/
def execute_set_circuit_breaker_params (st : Storage) (sender : String)
    (threshold timeout recovery : Nat) : Except VagusError Storage :=
  if sender ≠ st.vagusDao then Except.error VagusError.Unauthorized
  else Except.ok { st with
    circuitBreakerThreshold := threshold
    circuitBreakerTimeout := timeout
    circuitBreakerRecovery := recovery }

/-- execute_emergency_pause (DAO-gated). -/
def execute_emergency_pause (st : Storage) (sender : String) :
    Except VagusError Storage :=
  if sender ≠ st.vagusDao then Except.error VagusError.Unauthorized
  else Except.ok { st with emergencyPaused := true }

/-- execute_emergency_unpause (DAO-gated). -/
def execute_emergency_unpause (st : Storage) (sender : String) :
    Except VagusError Storage :=
  if sender ≠ st.vagusDao then Except.error VagusError.Unauthorized
  else Except.ok { st with emergencyPaused := false }

/-- ExecuteMsg of the issuer.  Issue carries every field of the message;
the dispatcher below drops the ones the source binds to an underscore. -/
inductive ExecuteMsg where
  | Issue (intent_executor_id : Nat) (intent_action_id : List Nat)
      (intent_params : List Nat) (intent_envelope_hash : List Nat)
      (intent_pre_state_root : List Nat)
      (intent_not_before intent_not_after : Nat)
      (intent_max_duration_ms intent_max_energy_j : Nat)
      (intent_planner : String) (intent_nonce : Nat)
      (scaled_limits_hash : List Nat) (expires_at : Nat)
  | Revoke (token_id : String) (reason : RevocationReason)
  | SetReflexArc (reflex_arc : String)
  | SetRateLimit (window_size max_requests : Nat)
  | SetCircuitBreakerParams (threshold timeout recovery : Nat)
  | EmergencyPause
  | EmergencyUnpause
deriving DecidableEq, Repr

/-- The issuer's execute entry point: the emergency-pause gate runs before
any dispatch. -/
def execute (st : Storage) (current_time : Nat) (sender : String)
    (msg : ExecuteMsg) : Except VagusError Storage :=
  if st.emergencyPaused then
    Except.error VagusError.ContractPaused
  else
    match msg with
    | ExecuteMsg.Issue executor_id action_id _ _ _ not_before not_after _ _
        planner _ scaled_limits_hash expires_at =>
        execute_issue st current_time sender executor_id action_id not_before
          not_after planner scaled_limits_hash expires_at
    | ExecuteMsg.Revoke token_id reason =>
        execute_revoke st current_time sender token_id reason
    | ExecuteMsg.SetReflexArc reflex_arc =>
        execute_set_reflex_arc st sender reflex_arc
    | ExecuteMsg.SetRateLimit window_size max_requests =>
        execute_set_rate_limit st sender window_size max_requests
    | ExecuteMsg.SetCircuitBreakerParams threshold timeout recovery =>
        execute_set_circuit_breaker_params st sender threshold timeout recovery
    | ExecuteMsg.EmergencyPause => execute_emergency_pause st sender
    | ExecuteMsg.EmergencyUnpause => execute_emergency_unpause st sender

end CapabilityIssuer

/-! ### Vagal Brake (contracts/vagal_brake/src/lib.rs) -/

namespace VagalBrake

/-- apply_scaling: the source returns the parameters unchanged (MVP). -/
def apply_scaling (params : List Nat) (_scaling_factor : Nat) :
    Except VagusError (List Nat) :=
  Except.ok params

/-- validate_scaled_limits.  The source computes the products in u128;
a u64 times a u64 is below 2 to the 128, so plain Nat arithmetic is exact. -/
def validate_scaled_limits (_scaled_params : List Nat)
    (max_duration_ms max_energy_j scaling_factor : Nat) :
    Except VagusError Unit :=
  let scaled_duration := max_duration_ms * scaling_factor / 10000
  if scaled_duration > MAX_DURATION_MS then
    Except.error VagusError.ANSLimitExceeded
  else
    let scaled_energy := max_energy_j * scaling_factor / 10000
    if scaled_energy > MAX_ENERGY_J then
      Except.error VagusError.ANSLimitExceeded
    else
      Except.ok ()

/-- execute_issue_with_brake.  The guard argument stands for the result of
the cross-contract GuardFor query to the ANS State Manager; the returned
value is the Issue message the brake attaches for the Capability Issuer. -/
def execute_issue_with_brake (guard : Guard) (intent_executor_id : Nat)
    (intent_action_id intent_params intent_envelope_hash
      intent_pre_state_root : List Nat)
    (intent_not_before intent_not_after : Nat)
    (intent_max_duration_ms intent_max_energy_j : Nat)
    (intent_planner : String) (intent_nonce : Nat)
    (scaled_limits_hash : List Nat) (expires_at : Nat) :
    Except VagusError CapabilityIssuer.ExecuteMsg :=
  if ¬ guard.allowed then
    Except.error VagusError.ANSBlocked
  else
    match apply_scaling intent_params guard.scalingFactor with
    | Except.error e => Except.error e
    | Except.ok scaled_params =>
      match validate_scaled_limits scaled_params intent_max_duration_ms
          intent_max_energy_j guard.scalingFactor with
      | Except.error e => Except.error e
      | Except.ok _ =>
        Except.ok (CapabilityIssuer.ExecuteMsg.Issue intent_executor_id
          intent_action_id scaled_params intent_envelope_hash
          intent_pre_state_root intent_not_before intent_not_after
          intent_max_duration_ms intent_max_energy_j intent_planner
          intent_nonce scaled_limits_hash expires_at)

end VagalBrake

/-! ### Afferent Inbox (contracts/afferent_inbox/src/lib.rs) -/

namespace AfferentInbox

/-- The inbox's Items: a single global latest-AEP slot and the attestor
allow-list. -/
structure Storage where
  latestAep : Option AfferentEvidencePacket
  authorizedAttestors : List String
deriving DecidableEq, Repr

/-- execute_post_aep. -/
def execute_post_aep (st : Storage) (current_time : Nat) (sender : String)
    (executor_id : Nat)
    (state_root_sha256 state_root_keccak metrics_hash_sha256
      metrics_hash_keccak _attestation : List Nat) :
    Except VagusError Storage :=
  if sender ∉ st.authorizedAttestors then
    Except.error VagusError.UnauthorizedAttestor
  else if state_root_sha256.length ≠ 32 ∨ state_root_keccak.length ≠ 32 ∨
      metrics_hash_sha256.length ≠ 32 ∨ metrics_hash_keccak.length ≠ 32 then
    Except.error VagusError.InvalidInput
  else
    let aep : AfferentEvidencePacket :=
      { executorId := executor_id
        stateRootSha256 := state_root_sha256
        stateRootKeccak := state_root_keccak
        metricsHashSha256 := metrics_hash_sha256
        metricsHashKeccak := metrics_hash_keccak
        timestamp := current_time }
    Except.ok { st with latestAep := some aep }

/-- query_latest_aep: the executor argument is ignored by the source; the
single global slot is returned. -/
def query_latest_aep (st : Storage) (_executor_id : Nat) :
    Option AfferentEvidencePacket :=
  st.latestAep

end AfferentInbox

/-! ### SHA3-256 and hash_scaling_limits (gateway/crates/vagus-crypto)

The gateway computes the scaling-limits hash with the sha3 crate's Sha3_256,
i.e. FIPS-202 SHA3-256 (rate 136 bytes, domain suffix 0x06).  The permutation
below works on 25 lanes of 64 bits, each lane a Nat kept below 2 to the 64. -/

namespace Sha3

def mask64 : Nat := 2 ^ 64 - 1

/-- 64-bit left rotation (n < 64; inputs below 2 to the 64). -/
def rotl64 (x n : Nat) : Nat :=
  ((x <<< n) ||| (x >>> (64 - n))) &&& mask64

/-- Lane read with default 0. -/
def lane (s : List Nat) (i : Nat) : Nat := s.getD i 0

/-- Keccak theta step. -/
def theta (s : List Nat) : List Nat :=
  let c := (List.range 5).map (fun x =>
    lane s x ^^^ lane s (x + 5) ^^^ lane s (x + 10) ^^^ lane s (x + 15) ^^^
      lane s (x + 20))
  let d := (List.range 5).map (fun x =>
    lane c ((x + 4) % 5) ^^^ rotl64 (lane c ((x + 1) % 5)) 1)
  (List.range 25).map (fun i => lane s i ^^^ lane d (i % 5))

/-- Rho rotation offsets, indexed x + 5 y, generated as in FIPS 202: start
at lane (1,0) and walk (x, y) to (y, 2x + 3y), assigning offset
(t+1)(t+2)/2 mod 64 at step t; lane (0,0) keeps offset 0. -/
def rhoOffsets : List Nat :=
  (((List.range 24).foldl
    (fun (s : List Nat × Nat × Nat) t =>
      (s.1.set (s.2.1 + 5 * s.2.2) ((t + 1) * (t + 2) / 2 % 64),
       s.2.2, (2 * s.2.1 + 3 * s.2.2) % 5))
    (List.replicate 25 0, 1, 0))).1

/-- Combined rho and pi steps: lane (x, y) lands rotated at (y, 2x + 3y). -/
def rhoPi (s : List Nat) : List Nat :=
  (List.range 25).foldl
    (fun b i =>
      let x := i % 5
      let y := i / 5
      let j := y + 5 * ((2 * x + 3 * y) % 5)
      b.set j (rotl64 (lane s i) (lane rhoOffsets i)))
    (List.replicate 25 0)

/-- Keccak chi step. -/
def chi (b : List Nat) : List Nat :=
  (List.range 25).map (fun i =>
    let x := i % 5
    let y := i / 5
    lane b i ^^^ ((lane b ((x + 1) % 5 + 5 * y) ^^^ mask64) &&&
      lane b ((x + 2) % 5 + 5 * y)))

/-- One step of the FIPS-202 degree-8 LFSR over GF(2). -/
def lfsrStep (r : Nat) : Nat :=
  ((r <<< 1) ^^^ ((r >>> 7) * 0x71)) % 256

/-- n iterations of the LFSR from state r. -/
def lfsrIter : Nat → Nat → Nat
  | 0, r => r
  | n + 1, r => lfsrIter n (lfsrStep r)

/-- The FIPS-202 bit rc(t): low bit of the LFSR run for t mod 255 steps. -/
def rcBit (t : Nat) : Nat :=
  lfsrIter (t % 255) 1 &&& 1

/-- Round constant of round i: bit rc(j + 7 i) placed at position 2^j - 1
for j = 0..6. -/
def roundConstant (i : Nat) : Nat :=
  (List.range 7).foldl
    (fun acc j => acc ||| (rcBit (j + 7 * i) <<< (2 ^ j - 1))) 0

/-- Keccak round constants for the 24 rounds. -/
def roundConstants : List Nat :=
  (List.range 24).map roundConstant

/-- One Keccak round followed by the iota constant. -/
def keccakRound (s : List Nat) (rc : Nat) : List Nat :=
  let b := chi (rhoPi (theta s))
  b.set 0 (lane b 0 ^^^ rc)

/-- Keccak-f[1600]: 24 rounds. -/
def keccakF (s : List Nat) : List Nat :=
  roundConstants.foldl keccakRound s

/-- SHA3 (FIPS 202) multi-rate padding for rate 136: suffix 0x06, zero fill,
final bit 0x80 (0x86 when a single byte remains). -/
def pad136 (msg : List Nat) : List Nat :=
  let padLen := 136 - msg.length % 136
  if padLen = 1 then msg ++ [0x86]
  else msg ++ [0x06] ++ List.replicate (padLen - 2) 0 ++ [0x80]

/-- Little-endian lane value of up to eight bytes. -/
def laneOfBytes (bs : List Nat) : Nat :=
  bs.foldr (fun b acc => acc * 256 + b) 0

/-- Absorb one 136-byte block and permute. -/
def absorbBlock (s : List Nat) (block : List Nat) : List Nat :=
  let lanes := (List.range 17).map (fun i => laneOfBytes ((block.drop (8 * i)).take 8))
  keccakF ((List.range 25).map (fun i => lane s i ^^^ lane lanes i))

/-- Split into 136-byte blocks (structural recursion on a length fuel so the
kernel can evaluate it). -/
def blocks136Aux : Nat → List Nat → List (List Nat)
  | 0, _ => []
  | _ + 1, [] => []
  | fuel + 1, l => l.take 136 :: blocks136Aux fuel (l.drop 136)

/-- Split into 136-byte blocks. -/
def blocks136 (l : List Nat) : List (List Nat) :=
  blocks136Aux l.length l

/-- v as n little-endian bytes. -/
def natToBytesLE : Nat → Nat → List Nat
  | 0, _ => []
  | n + 1, v => v % 256 :: natToBytesLE n (v / 256)

/-- SHA3-256 digest (32 bytes) of a byte list. -/
def sha3_256 (msg : List Nat) : List Nat :=
  let s := (blocks136 (pad136 msg)).foldl absorbBlock (List.replicate 25 0)
  (List.range 4).flatMap (fun i => natToBytesLE 8 (lane s i))

end Sha3

/-- Big-endian bytes of a u32 (u32::to_be_bytes). -/
def be32 (v : Nat) : List Nat :=
  [v / 2 ^ 24 % 256, v / 2 ^ 16 % 256, v / 2 ^ 8 % 256, v % 256]

/-- Big-endian bytes of a u64 (u64::to_be_bytes). -/
def be64 (v : Nat) : List Nat :=
  (Sha3.natToBytesLE 8 v).reverse

/-- hash_scaling_limits from vagus-crypto: SHA3-256 over action_id, the
scaled duration and energy as big-endian u32, and the scaling factor as
big-endian u64. -/
def hash_scaling_limits (action_id : List Nat)
    (scaled_duration scaled_energy scaling_factor : Nat) : List Nat :=
  Sha3.sha3_256 (action_id ++ be32 scaled_duration ++ be32 scaled_energy ++
    be64 scaling_factor)

set_option maxRecDepth 100000 in
/-- Sanity anchor: the implementation above reproduces the FIPS-202 test
vector for SHA3-256 of the empty message. -/
theorem sha3_256_empty_vector :
    Sha3.sha3_256 [] =
      [0xa7, 0xff, 0xc6, 0xf8, 0xbf, 0x1e, 0xd7, 0x66, 0x51, 0xc1, 0x47,
       0x56, 0xa0, 0x61, 0xd6, 0x62, 0xf5, 0x80, 0xff, 0x4d, 0xe4, 0x3b,
       0x49, 0xfa, 0x82, 0xd8, 0x0a, 0x4b, 0x80, 0xf8, 0x43, 0x4a] := by
  decide

/-! ### Spec-side comparison definitions

These two definitions follow the specification's words (section 4.1), not
the source; the refinement theorems below compare them with the source
translation. -/

/-- The spec's conservativeness order SAFE < DANGER < SHUTDOWN, as a rank. -/
def conservRank : ANSState → Nat
  | ANSState.SAFE => 0
  | ANSState.DANGER => 1
  | ANSState.SHUTDOWN => 2

/-- The spec's hysteresis table, row by row as the claim words it:
from SAFE, DANGER iff vti < D, else SAFE; from DANGER, SAFE iff vti ≥ S,
SHUTDOWN iff vti < D/2, else DANGER; from SHUTDOWN, SAFE iff vti ≥ S,
DANGER iff D ≤ vti < S, else SHUTDOWN. -/
def hysteresis_spec_table (current : ANSState) (vti D S : Nat) : ANSState :=
  match current with
  | ANSState.SAFE =>
      if vti < D then ANSState.DANGER else ANSState.SAFE
  | ANSState.DANGER =>
      if vti ≥ S then ANSState.SAFE
      else if vti < D / 2 then ANSState.SHUTDOWN
      else ANSState.DANGER
  | ANSState.SHUTDOWN =>
      if vti ≥ S then ANSState.SAFE
      else if D ≤ vti ∧ vti < S then ANSState.DANGER
      else ANSState.SHUTDOWN

/-! ### Concrete fixtures for witnesses and counterexamples -/

/-- Results of the embedded entry points are compared by decidable
equality in the concrete witnesses below. -/
def exceptDecEq {ε α : Type} [DecidableEq ε] [DecidableEq α] :
    DecidableEq (Except ε α) := fun x y =>
  match x, y with
  | Except.ok a, Except.ok b =>
      if h : a = b then Decidable.isTrue (congrArg Except.ok h)
      else Decidable.isFalse (fun hh => h (Except.ok.inj hh))
  | Except.error a, Except.error b =>
      if h : a = b then Decidable.isTrue (congrArg Except.error h)
      else Decidable.isFalse (fun hh => h (Except.error.inj hh))
  | Except.ok _, Except.error _ =>
      Decidable.isFalse (fun hh => Except.noConfusion hh)
  | Except.error _, Except.ok _ =>
      Decidable.isFalse (fun hh => Except.noConfusion hh)

instance {ε α : Type} [DecidableEq ε] [DecidableEq α] :
    DecidableEq (Except ε α) := exceptDecEq

/-- Unwrap an Except result, with a fallback for the error case. -/
def okOr {α : Type} (d : α) : Except VagusError α → α
  | Except.ok a => a
  | Except.error _ => d

/-- An ANS storage sitting in DANGER since t=100 with the spec's default
thresholds (safe 8000, danger 6000, residency 60). -/
def ansStDanger : AnsStateManager.Storage :=
  { currentState := ANSState.DANGER
    currentTone := ⟨5000, 100⟩
    lastStateChange := 100
    minStateResidency := 60
    safeThreshold := 8000
    dangerThreshold := 6000 }

/-- The same ANS storage before any state change (lastStateChange = 0). -/
def ansStDanger0 : AnsStateManager.Storage :=
  { ansStDanger with currentTone := ⟨5000, 0⟩, lastStateChange := 0 }

/-- A freshly instantiated issuer storage with one authorized executor and
the source's default throttle parameters. -/
def issuerBase : CapabilityIssuer.Storage :=
  { nextTokenId := 1
    authorizedExecutors := ["executor1"]
    reflexArc := none
    vagusDao := "dao1"
    tokens := []
    owners := []
    ownedTokens := []
    globalRateLimit := ⟨3600, 100⟩
    circuitBreakerThreshold := 5
    circuitBreakerTimeout := 300
    circuitBreakerRecovery := 3
    rateLimitWindows := []
    circuitBreakers := []
    emergencyPaused := false }

/-- A well-formed Issue message for executor 7 by planner1 with nonce 1,
valid from t=0 to t=1000000, expiring at t=1000000. -/
def issueMsg1 : CapabilityIssuer.ExecuteMsg :=
  CapabilityIssuer.ExecuteMsg.Issue 7 [] [] [] [] 0 1000000 10000 500
    "planner1" 1 (List.replicate 32 0) 1000000

/-! ### Map helper lemmas -/

theorem mapGet_mem {κ α : Type} [DecidableEq κ] {m : List (κ × α)} {k : κ}
    {v : α} (h : mapGet m k = some v) : (k, v) ∈ m := by
  induction m with
  | nil => simp [mapGet] at h
  | cons hd t ih =>
    unfold mapGet at h
    split at h
    · rename_i heq
      obtain ⟨rfl⟩ := Option.some.inj h
      simp [← heq]
    · exact List.mem_cons_of_mem _ (ih h)

theorem mem_mapPut {κ α : Type} [DecidableEq κ] {m : List (κ × α)} {k : κ}
    {v : α} {kv : κ × α} (h : kv ∈ mapPut m k v) : kv = (k, v) ∨ kv ∈ m := by
  induction m with
  | nil => simpa [mapPut] using h
  | cons hd t ih =>
    unfold mapPut at h
    split at h
    · rcases List.mem_cons.mp h with h' | h'
      · exact Or.inl h'
      · exact Or.inr (List.mem_cons_of_mem _ h')
    · rcases List.mem_cons.mp h with h' | h'
      · exact Or.inr (h' ▸ List.mem_cons_self hd t)
      · rcases ih h' with h'' | h''
        · exact Or.inl h''
        · exact Or.inr (List.mem_cons_of_mem _ h'')

/-! ### ANS State Manager theorems -/

theorem conservRank_eq_rank (s : ANSState) :
    conservRank s = AnsStateManager.rank s := by
  cases s <;> rfl

/-- On any successful UpdateTone, the stored state is the hysteresis result
overridden by the suggested state when that is more conservative. -/
theorem update_tone_ok_currentState
    (st st' : AnsStateManager.Storage) (now vti : Nat) (sugg : ANSState)
    (h : AnsStateManager.execute_update_tone st now vti sugg = Except.ok st') :
    st'.currentState =
      (if AnsStateManager.is_more_conservative sugg
          (AnsStateManager.determine_state_with_hysteresis st.currentState vti
            st.safeThreshold st.dangerThreshold) then sugg
       else AnsStateManager.determine_state_with_hysteresis st.currentState vti
          st.safeThreshold st.dangerThreshold) := by
  unfold AnsStateManager.execute_update_tone at h
  split at h
  · exact absurd h (by simp)
  split at h
  · exact absurd h (by simp)
  rw [Except.ok.injEq] at h
  subst h
  dsimp only
  split
  all_goals split
  · rfl
  · rename_i hne
    exact (not_ne_iff.mp hne).symm
  · rfl
  · rename_i hne
    exact (not_ne_iff.mp hne).symm

/-- The source's Boolean conservativeness test agrees with the spec's
conservativeness order SAFE < DANGER < SHUTDOWN. -/
theorem is_more_conservative_iff (a b : ANSState) :
    AnsStateManager.is_more_conservative a b = true ↔
      conservRank a > conservRank b := by
  cases a <;> cases b <;> decide

/-- C6 (confirmed).  For every current state, every vti ≤ 10000 and any
thresholds D < S, the next state computed by the source's
determine_state_with_hysteresis equals the spec's hysteresis table in every
cell; and on every successful UpdateTone the stored final state is the
computed state overridden by the suggested state exactly when the suggested
state is strictly more conservative (order SAFE < DANGER < SHUTDOWN). -/
theorem C6_hysteresis_table_refinement (current : ANSState)
    (vti danger safe : Nat) (hth : danger < safe) (hv : vti ≤ 10000) :
    AnsStateManager.determine_state_with_hysteresis current vti safe danger
      = hysteresis_spec_table current vti danger safe ∧
    (∀ (st st' : AnsStateManager.Storage) (now : Nat) (sugg : ANSState),
      AnsStateManager.execute_update_tone st now vti sugg = Except.ok st' →
      st'.currentState =
        (if conservRank sugg >
            conservRank (AnsStateManager.determine_state_with_hysteresis
              st.currentState vti st.safeThreshold st.dangerThreshold)
         then sugg
         else AnsStateManager.determine_state_with_hysteresis st.currentState
           vti st.safeThreshold st.dangerThreshold)) := by
  constructor
  · cases current <;>
      simp only [AnsStateManager.determine_state_with_hysteresis,
        hysteresis_spec_table] <;>
      split_ifs <;> first | rfl | omega
  · intro st st' now sugg hexec
    rw [update_tone_ok_currentState st st' now vti sugg hexec]
    by_cases hc : conservRank sugg >
        conservRank (AnsStateManager.determine_state_with_hysteresis
          st.currentState vti st.safeThreshold st.dangerThreshold)
    · rw [if_pos ((is_more_conservative_iff _ _).mpr hc), if_pos hc]
    · rw [if_neg (fun hb => hc ((is_more_conservative_iff _ _).mp hb)),
        if_neg hc]

/-- Witness for C6 at a concrete input: the table cell for DANGER with
vti 7000 and thresholds 6000/8000, and a concrete UpdateTone from DANGER
where the suggested SHUTDOWN overrides the computed DANGER. -/
theorem C6_hysteresis_table_refinement_witness :
    AnsStateManager.determine_state_with_hysteresis ANSState.DANGER 7000
        8000 6000
      = hysteresis_spec_table ANSState.DANGER 7000 6000 8000 ∧
    (okOr ansStDanger0
      (AnsStateManager.execute_update_tone ansStDanger0 0 7000
        ANSState.SHUTDOWN)).currentState =
      (if conservRank ANSState.SHUTDOWN >
          conservRank (AnsStateManager.determine_state_with_hysteresis
            ansStDanger0.currentState 7000 ansStDanger0.safeThreshold
            ansStDanger0.dangerThreshold)
       then ANSState.SHUTDOWN
       else AnsStateManager.determine_state_with_hysteresis
         ansStDanger0.currentState 7000 ansStDanger0.safeThreshold
         ansStDanger0.dangerThreshold) :=
  ⟨(C6_hysteresis_table_refinement ANSState.DANGER 7000 6000 8000 (by decide)
      (by decide)).1,
   (C6_hysteresis_table_refinement ANSState.DANGER 7000 6000 8000 (by decide)
      (by decide)).2 ansStDanger0
     (okOr ansStDanger0
       (AnsStateManager.execute_update_tone ansStDanger0 0 7000
         ANSState.SHUTDOWN))
     0 ANSState.SHUTDOWN (by decide)⟩

/-- C3 counterexample.  State DANGER since t=100, residency 60: at t=120
UpdateTone(1000, SHUTDOWN) computes SHUTDOWN, a strictly more conservative
state than DANGER, yet the source rejects with StateChangeTooFrequent —
the residency gate has no conservative-move bypass, contradicting the
claimed iff (and the spec's scenario in which this call succeeds). -/
theorem C3_conservative_bypass_counterexample :
    AnsStateManager.execute_update_tone ansStDanger 120 1000 ANSState.SHUTDOWN
      = Except.error VagusError.StateChangeTooFrequent ∧
    conservRank (AnsStateManager.determine_state_with_hysteresis
        ansStDanger.currentState 1000 ansStDanger.safeThreshold
        ansStDanger.dangerThreshold)
      > conservRank ansStDanger.currentState := by
  decide

/-- C3 amended (corrected).  UpdateTone with a valid vti fails with
StateChangeTooFrequent iff lastStateChange ≠ 0 and now is inside the
residency window — irrespective of whether a state change would occur and
of whether the move is conservative. -/
theorem C3_residency_gate_unconditional
    (st : AnsStateManager.Storage) (now vti : Nat) (sugg : ANSState)
    (hv : vti ≤ 10000) :
    AnsStateManager.execute_update_tone st now vti sugg
        = Except.error VagusError.StateChangeTooFrequent ↔
      st.lastStateChange ≠ 0 ∧
        now < st.lastStateChange + st.minStateResidency := by
  unfold AnsStateManager.execute_update_tone
  rw [if_neg (by omega)]
  split_ifs with h
  · simp [h]
  · simp [h]

/-- Witness for C3 amended: inside the window a tone-only update (vti 5000
keeps DANGER) is rejected. -/
theorem C3_residency_gate_unconditional_witness :
    AnsStateManager.execute_update_tone ansStDanger 120 5000 ANSState.DANGER
        = Except.error VagusError.StateChangeTooFrequent ↔
      ansStDanger.lastStateChange ≠ 0 ∧
        120 < ansStDanger.lastStateChange + ansStDanger.minStateResidency :=
  C3_residency_gate_unconditional ansStDanger 120 5000 ANSState.DANGER
    (by decide)

/-! ### Capability Issuer pause theorems -/

/-- C10 (confirmed).  The pause gate in the issuer's execute dispatcher runs
before any message handler, so while emergencyPaused is set every
ExecuteMsg — Revoke and EmergencyUnpause included — fails with
ContractPaused (and, the transaction reverting, leaves the state
unchanged); no execute path can clear the pause. -/
theorem C10_pause_locks_all_executes (st : CapabilityIssuer.Storage)
    (now : Nat) (sender : String) (msg : CapabilityIssuer.ExecuteMsg)
    (h : st.emergencyPaused = true) :
    CapabilityIssuer.execute st now sender msg
      = Except.error VagusError.ContractPaused := by
  unfold CapabilityIssuer.execute
  simp [h]

/-- Witness for C10: the paused issuer rejects even the DAO's
EmergencyUnpause. -/
theorem C10_pause_locks_all_executes_witness :
    CapabilityIssuer.execute { issuerBase with emergencyPaused := true } 0
        "dao1" CapabilityIssuer.ExecuteMsg.EmergencyUnpause
      = Except.error VagusError.ContractPaused :=
  C10_pause_locks_all_executes { issuerBase with emergencyPaused := true } 0
    "dao1" CapabilityIssuer.ExecuteMsg.EmergencyUnpause rfl

/-! ### Afferent Inbox theorems -/

/-- 32 bytes of value b, a convenient well-formed hash stand-in. -/
def rep32 (b : Nat) : List Nat := List.replicate 32 b

/-- The inbox with one authorized attestor and an empty slot. -/
def inboxSt0 : AfferentInbox.Storage :=
  { latestAep := none, authorizedAttestors := ["attestor1"] }

/-- The inbox after attestor1 posts evidence for executor 1 at t=10. -/
def inboxSt1 : AfferentInbox.Storage :=
  okOr inboxSt0 (AfferentInbox.execute_post_aep inboxSt0 10 "attestor1" 1
    (rep32 1) (rep32 1) (rep32 1) (rep32 1) [])

/-- The inbox after attestor1 then posts evidence for executor 2 at t=20. -/
def inboxSt2 : AfferentInbox.Storage :=
  okOr inboxSt1 (AfferentInbox.execute_post_aep inboxSt1 20 "attestor1" 2
    (rep32 2) (rep32 2) (rep32 2) (rep32 2) [])

/-- C9 counterexample.  After accepted posts for executor 1 and then for
executor 2, LatestAEP(1) answers with executor 2's packet: the slot is
global, not per-executor, so a later post for a different executor does
change the answer for executor 1. -/
theorem C9_per_executor_slot_counterexample :
    AfferentInbox.execute_post_aep inboxSt0 10 "attestor1" 1 (rep32 1)
        (rep32 1) (rep32 1) (rep32 1) [] = Except.ok inboxSt1 ∧
    AfferentInbox.execute_post_aep inboxSt1 20 "attestor1" 2 (rep32 2)
        (rep32 2) (rep32 2) (rep32 2) [] = Except.ok inboxSt2 ∧
    (AfferentInbox.query_latest_aep inboxSt2 1).map
        (fun a => a.executorId) = some 2 := by
  decide

/-- C9 amended (corrected).  The inbox keeps a single global latest slot:
after any accepted PostAEP, LatestAEP returns the packet just posted
regardless of which executor is queried. -/
theorem C9_latest_aep_global_slot (st st' : AfferentInbox.Storage)
    (now : Nat) (sender : String) (eid : Nat)
    (srs srk mhs mhk att : List Nat)
    (h : AfferentInbox.execute_post_aep st now sender eid srs srk mhs mhk att
      = Except.ok st') :
    ∀ q : Nat, AfferentInbox.query_latest_aep st' q
      = some ⟨eid, srs, srk, mhs, mhk, now⟩ := by
  unfold AfferentInbox.execute_post_aep at h
  split at h
  · exact absurd h (by simp)
  split at h
  · exact absurd h (by simp)
  rw [Except.ok.injEq] at h
  subst h
  intro q
  rfl

/-- Witness for C9 amended at a concrete accepted post, queried for an
unrelated executor id. -/
theorem C9_latest_aep_global_slot_witness :
    AfferentInbox.query_latest_aep inboxSt1 99
      = some ⟨1, rep32 1, rep32 1, rep32 1, rep32 1, 10⟩ :=
  C9_latest_aep_global_slot inboxSt0 inboxSt1 10 "attestor1" 1 (rep32 1)
    (rep32 1) (rep32 1) (rep32 1) [] (by decide) 99

/-! ### Vagal Brake theorems -/

/-- The guard the ANS manager serves in DANGER: factor 5000, allowed. -/
def guardDanger : Guard := { scalingFactor := 5000, allowed := true }

/-- C7 (confirmed).  With an allowing guard and s ≤ 10000, IssueWithBrake
fails with ANSLimitExceeded iff the floor-scaled duration exceeds
MAX_DURATION_MS or the floor-scaled energy exceeds MAX_ENERGY_J; otherwise
it admits the intent.  The source's u128 products cannot wrap for u64
inputs. -/
theorem C7_brake_caps_iff (guard : Guard) (eid : Nat)
    (aid params env pre : List Nat) (nb na dur en : Nat) (planner : String)
    (nonce : Nat) (hash : List Nat) (exp : Nat)
    (hallow : guard.allowed = true) (hs : guard.scalingFactor ≤ 10000) :
    (VagalBrake.execute_issue_with_brake guard eid aid params env pre nb na
        dur en planner nonce hash exp
        = Except.error VagusError.ANSLimitExceeded ↔
      dur * guard.scalingFactor / 10000 > MAX_DURATION_MS ∨
        en * guard.scalingFactor / 10000 > MAX_ENERGY_J) ∧
    (dur * guard.scalingFactor / 10000 ≤ MAX_DURATION_MS ∧
        en * guard.scalingFactor / 10000 ≤ MAX_ENERGY_J →
      (VagalBrake.execute_issue_with_brake guard eid aid params env pre nb na
        dur en planner nonce hash exp).isOk = true) ∧
    (dur < 2 ^ 64 → dur * guard.scalingFactor < 2 ^ 128) ∧
    (en < 2 ^ 64 → en * guard.scalingFactor < 2 ^ 128) := by
  refine ⟨?_, ?_, ?_, ?_⟩
  · unfold VagalBrake.execute_issue_with_brake VagalBrake.apply_scaling
      VagalBrake.validate_scaled_limits
    rw [if_neg (by simp [hallow])]
    dsimp only
    by_cases hd : dur * guard.scalingFactor / 10000 > MAX_DURATION_MS
    · rw [if_pos hd]
      exact ⟨fun _ => Or.inl hd, fun _ => rfl⟩
    · rw [if_neg hd]
      by_cases he : en * guard.scalingFactor / 10000 > MAX_ENERGY_J
      · rw [if_pos he]
        exact ⟨fun _ => Or.inr he, fun _ => rfl⟩
      · rw [if_neg he]
        constructor
        · intro hcontra
          exact absurd hcontra (by simp)
        · intro hor
          rcases hor with h | h
          · exact absurd h hd
          · exact absurd h he
  · intro ⟨hd, he⟩
    unfold VagalBrake.execute_issue_with_brake VagalBrake.apply_scaling
      VagalBrake.validate_scaled_limits
    rw [if_neg (by simp [hallow])]
    dsimp only
    rw [if_neg (by omega), if_neg (by omega)]
    rfl
  · intro hdur
    have h1 : dur * guard.scalingFactor ≤ (2 ^ 64 - 1) * 10000 :=
      Nat.mul_le_mul (by omega) hs
    omega
  · intro hen
    have h1 : en * guard.scalingFactor ≤ (2 ^ 64 - 1) * 10000 :=
      Nat.mul_le_mul (by omega) hs
    omega

/-- Witness for C7: in DANGER (s=5000) an intent with duration 10000 ms and
energy 500 J scales to 5000/250 and is admitted. -/
theorem C7_brake_caps_iff_witness :
    (VagalBrake.execute_issue_with_brake guardDanger 7 (rep32 0) [] [] [] 0
        1000000 10000 500 "planner1" 1 (rep32 7) 1000000
        = Except.error VagusError.ANSLimitExceeded ↔
      10000 * guardDanger.scalingFactor / 10000 > MAX_DURATION_MS ∨
        500 * guardDanger.scalingFactor / 10000 > MAX_ENERGY_J) ∧
    (VagalBrake.execute_issue_with_brake guardDanger 7 (rep32 0) [] [] [] 0
        1000000 10000 500 "planner1" 1 (rep32 7) 1000000).isOk = true ∧
    10000 * guardDanger.scalingFactor < 2 ^ 128 ∧
    500 * guardDanger.scalingFactor < 2 ^ 128 :=
  ⟨(C7_brake_caps_iff guardDanger 7 (rep32 0) [] [] [] 0 1000000 10000 500
      "planner1" 1 (rep32 7) 1000000 (by decide) (by decide)).1,
   (C7_brake_caps_iff guardDanger 7 (rep32 0) [] [] [] 0 1000000 10000 500
      "planner1" 1 (rep32 7) 1000000 (by decide) (by decide)).2.1
     (by decide),
   (C7_brake_caps_iff guardDanger 7 (rep32 0) [] [] [] 0 1000000 10000 500
      "planner1" 1 (rep32 7) 1000000 (by decide) (by decide)).2.2.1
     (by decide),
   (C7_brake_caps_iff guardDanger 7 (rep32 0) [] [] [] 0 1000000 10000 500
      "planner1" 1 (rep32 7) 1000000 (by decide) (by decide)).2.2.2
     (by decide)⟩

set_option maxRecDepth 400000 in
/-- C4 counterexample.  With the DANGER guard and the scenario-3 intent
(duration 10000, energy 500), the caller-supplied hash differs from the
recomputed SHA3-256 scaling-limits hash, yet IssueWithBrake admits the
intent and forwards that very hash to the issuer instead of failing with
CBORHashMismatch: the brake performs no hash verification at all. -/
theorem C4_hash_mismatch_admitted_counterexample :
    rep32 7 ≠ hash_scaling_limits (rep32 0)
        (10000 * guardDanger.scalingFactor / 10000)
        (500 * guardDanger.scalingFactor / 10000)
        guardDanger.scalingFactor ∧
    VagalBrake.execute_issue_with_brake guardDanger 7 (rep32 0) [] [] [] 0
        1000000 10000 500 "planner1" 1 (rep32 7) 1000000
      = Except.ok (CapabilityIssuer.ExecuteMsg.Issue 7 (rep32 0) [] [] [] 0
        1000000 10000 500 "planner1" 1 (rep32 7) 1000000) := by
  decide

/-- C4 amended (corrected).  IssueWithBrake never fails with
CBORHashMismatch, and whenever it admits an intent the forwarded Issue
message carries the caller-supplied scaled_limits_hash verbatim, with no
recomputation or comparison. -/
theorem C4_brake_forwards_hash_unverified (guard : Guard) (eid : Nat)
    (aid params env pre : List Nat) (nb na dur en : Nat) (planner : String)
    (nonce : Nat) (hash : List Nat) (exp : Nat) :
    VagalBrake.execute_issue_with_brake guard eid aid params env pre nb na
        dur en planner nonce hash exp
      ≠ Except.error VagusError.CBORHashMismatch ∧
    (∀ out, VagalBrake.execute_issue_with_brake guard eid aid params env pre
        nb na dur en planner nonce hash exp = Except.ok out →
      out = CapabilityIssuer.ExecuteMsg.Issue eid aid params env pre nb na
        dur en planner nonce hash exp) := by
  constructor
  · intro hcontra
    unfold VagalBrake.execute_issue_with_brake VagalBrake.apply_scaling
      VagalBrake.validate_scaled_limits at hcontra
    split at hcontra
    · simp at hcontra
    · dsimp only at hcontra
      split at hcontra
      · rename_i e heq
        rw [Except.error.injEq] at hcontra
        subst hcontra
        split at heq
        · simp at heq
        · split at heq
          · simp at heq
          · simp at heq
      · simp at hcontra
  · intro out hout
    unfold VagalBrake.execute_issue_with_brake VagalBrake.apply_scaling
      VagalBrake.validate_scaled_limits at hout
    split at hout
    · simp at hout
    · dsimp only at hout
      split at hout
      · simp at hout
      · exact (Except.ok.inj hout).symm

/-- Witness for C4 amended at the scenario-3 input. -/
theorem C4_brake_forwards_hash_unverified_witness :
    VagalBrake.execute_issue_with_brake guardDanger 7 (rep32 0) [] [] [] 0
        1000000 10000 500 "planner1" 1 (rep32 7) 1000000
      ≠ Except.error VagusError.CBORHashMismatch ∧
    CapabilityIssuer.ExecuteMsg.Issue 7 (rep32 0) [] [] [] 0 1000000 10000
        500 "planner1" 1 (rep32 7) 1000000
      = CapabilityIssuer.ExecuteMsg.Issue 7 (rep32 0) [] [] [] 0 1000000
        10000 500 "planner1" 1 (rep32 7) 1000000 :=
  ⟨(C4_brake_forwards_hash_unverified guardDanger 7 (rep32 0) [] [] [] 0
      1000000 10000 500 "planner1" 1 (rep32 7) 1000000).1,
   (C4_brake_forwards_hash_unverified guardDanger 7 (rep32 0) [] [] [] 0
      1000000 10000 500 "planner1" 1 (rep32 7) 1000000).2
     (CapabilityIssuer.ExecuteMsg.Issue 7 (rep32 0) [] [] [] 0 1000000 10000
       500 "planner1" 1 (rep32 7) 1000000) (by decide)⟩

/-! ### Capability Issuer throttle lemmas -/

namespace CapabilityIssuer

theorem check_circuit_breaker_error (cbs : List (String × CircuitBreaker))
    (key : String) (now : Nat) (e : VagusError)
    (h : check_circuit_breaker cbs key now = Except.error e) :
    e = VagusError.CircuitBreakerOpen := by
  simp only [check_circuit_breaker] at h
  split at h
  · split at h
    · exact (Except.error.inj h).symm
    · simp at h
  · simp at h

theorem check_rate_limit_error (cfg : RateLimitConfig)
    (ws : List (String × List Nat)) (key : String) (now : Nat)
    (e : VagusError) (h : check_rate_limit cfg ws key now = Except.error e) :
    e = VagusError.RateLimited := by
  simp only [check_rate_limit] at h
  split at h
  · exact (Except.error.inj h).symm
  · simp at h

/-- Pruning keeps exactly the timestamps strictly inside the window; the
source's rejection test and append are both phrased over that pruned list. -/
theorem check_rate_limit_spec (cfg : RateLimitConfig)
    (ws : List (String × List Nat)) (key : String) (now : Nat) :
    (check_rate_limit cfg ws key now = Except.error VagusError.RateLimited ↔
      (((mapGet ws key).getD []).filter
        (fun ts => ts > now - cfg.window_size)).length ≥ cfg.max_requests) ∧
    (∀ ws', check_rate_limit cfg ws key now = Except.ok ws' →
      ws' = mapPut ws key ((((mapGet ws key).getD []).filter
        (fun ts => ts > now - cfg.window_size)) ++ [now])) := by
  constructor
  · simp only [check_rate_limit]
    split_ifs with h
    · simp [h]
    · simp [h]
  · intro ws' h
    simp only [check_rate_limit] at h
    split_ifs at h with h1
    exact (Except.ok.inj h).symm

/-- Under the no-Open invariant the breaker check is a no-op success. -/
theorem check_circuit_breaker_ok_of_no_open
    (cbs : List (String × CircuitBreaker)) (key : String) (now : Nat)
    (hinv : ∀ kv ∈ cbs, kv.2.state ≠ CircuitState.Open) :
    check_circuit_breaker cbs key now = Except.ok cbs := by
  have hcb : ((mapGet cbs key).getD defaultBreaker).state
      ≠ CircuitState.Open := by
    cases hm : mapGet cbs key with
    | none => simp [defaultBreaker]
    | some c => simpa using hinv (key, c) (mapGet_mem hm)
  simp only [check_circuit_breaker]
  rw [if_neg hcb]

/-- Recording a success never produces an Open breaker. -/
theorem record_circuit_success_no_open
    (cbs : List (String × CircuitBreaker)) (key : String) (rec : Nat)
    (hinv : ∀ kv ∈ cbs, kv.2.state ≠ CircuitState.Open) :
    ∀ kv ∈ record_circuit_success cbs key rec,
      kv.2.state ≠ CircuitState.Open := by
  have hc0 : ((mapGet cbs key).getD defaultBreaker).state
      ≠ CircuitState.Open := by
    cases hm : mapGet cbs key with
    | none => simp [defaultBreaker]
    | some c => simpa using hinv (key, c) (mapGet_mem hm)
  intro kv hkv
  simp only [record_circuit_success] at hkv
  rcases mem_mapPut hkv with h | h
  · rw [h]
    dsimp only
    split_ifs with h1 h2
    · intro hcontra
      exact CircuitState.noConfusion hcontra
    · show ((mapGet cbs key).getD defaultBreaker).state ≠ CircuitState.Open
      rw [h1]
      intro hcontra
      exact CircuitState.noConfusion hcontra
    · rename_i h3
      show ((mapGet cbs key).getD defaultBreaker).state ≠ CircuitState.Open
      rw [h3]
      intro hcontra
      exact CircuitState.noConfusion hcontra
    · exact hc0
  · exact hinv kv h

/-- Under the no-Open invariant, Issue never fails with CircuitBreakerOpen
and preserves the invariant. -/
theorem execute_issue_no_cbopen (st : Storage) (now : Nat) (sender : String)
    (eid : Nat) (aid : List Nat) (nb na : Nat) (planner : String)
    (hash : List Nat) (exp : Nat)
    (hinv : ∀ kv ∈ st.circuitBreakers, kv.2.state ≠ CircuitState.Open) :
    execute_issue st now sender eid aid nb na planner hash exp
      ≠ Except.error VagusError.CircuitBreakerOpen ∧
    (∀ st', execute_issue st now sender eid aid nb na planner hash exp
        = Except.ok st' →
      ∀ kv ∈ st'.circuitBreakers, kv.2.state ≠ CircuitState.Open) := by
  simp only [execute_issue]
  by_cases h1 : sender ∉ st.authorizedExecutors
  · rw [if_pos h1]
    exact ⟨by simp, fun st' h => by simp at h⟩
  · rw [if_neg h1]
    by_cases h2 : now < nb ∨ now > na
    · rw [if_pos h2]
      exact ⟨by simp, fun st' h => by simp at h⟩
    · rw [if_neg h2]
      rw [check_circuit_breaker_ok_of_no_open _ _ _ hinv]
      dsimp only
      cases hr : check_rate_limit st.globalRateLimit st.rateLimitWindows
          (mkKey eid aid) now with
      | error e =>
        dsimp only
        constructor
        · intro hc
          have he : e = VagusError.RateLimited :=
            check_rate_limit_error _ _ _ _ _ hr
          rw [he] at hc
          exact VagusError.noConfusion (Except.error.inj hc)
        · intro st' h
          simp at h
      | ok ws =>
        dsimp only
        constructor
        · simp
        · intro st' h
          rw [Except.ok.injEq] at h
          subst h
          exact record_circuit_success_no_open _ _ _ hinv

end CapabilityIssuer

/-! ### Issuer state fixtures derived by running the embedded code -/

/-- The issuer after the first successful Issue at t=5. -/
def issuerSt1 : CapabilityIssuer.Storage :=
  okOr issuerBase (CapabilityIssuer.execute issuerBase 5 "executor1" issueMsg1)

/-- The ANS manager after UpdateTone(0, SHUTDOWN) at t=100 from DANGER. -/
def ansStShut : AnsStateManager.Storage :=
  okOr ansStDanger0
    (AnsStateManager.execute_update_tone ansStDanger0 100 0 ANSState.SHUTDOWN)

/-! ### C1: SHUTDOWN safety invariant -/

/-- C1 counterexample.  A reachable combined state violating the claimed
invariant: token 1 (no escape-action notion exists in the source, so it is
a non-escape action) is issued at t=5 with expiry t=1000000; UpdateTone
then moves the ANS manager into SHUTDOWN at t=100; at t=101 the state is
SHUTDOWN yet IsValid(1) still answers true — nothing in the source revokes
or invalidates previously issued tokens on entry to SHUTDOWN. -/
theorem C1_shutdown_token_still_valid_counterexample :
    CapabilityIssuer.execute issuerBase 5 "executor1" issueMsg1
      = Except.ok issuerSt1 ∧
    AnsStateManager.execute_update_tone ansStDanger0 100 0 ANSState.SHUTDOWN
      = Except.ok ansStShut ∧
    ansStShut.currentState = ANSState.SHUTDOWN ∧
    CapabilityIssuer.query_is_valid issuerSt1 101 "1" = true := by
  decide

/-- C1 amended (corrected).  What SHUTDOWN does enforce: the guard served
for every action is (0, blocked), so the brake rejects all new issuance
with ANSBlocked; previously issued unrevoked, unexpired tokens remain
valid until revoked individually or expired. -/
theorem C1_shutdown_blocks_new_issuance (st : AnsStateManager.Storage)
    (eid : Nat) (aid params env pre : List Nat) (nb na dur en : Nat)
    (planner : String) (nonce : Nat) (hash : List Nat) (exp : Nat)
    (h : st.currentState = ANSState.SHUTDOWN) :
    AnsStateManager.query_guard_for st = ⟨0, false⟩ ∧
    VagalBrake.execute_issue_with_brake (AnsStateManager.query_guard_for st)
        eid aid params env pre nb na dur en planner nonce hash exp
      = Except.error VagusError.ANSBlocked := by
  have hg : AnsStateManager.query_guard_for st = ⟨0, false⟩ := by
    unfold AnsStateManager.query_guard_for
    rw [h]
    rfl
  refine ⟨hg, ?_⟩
  rw [hg]
  rfl

/-- Witness for C1 amended, in the concrete post-SHUTDOWN ANS state. -/
theorem C1_shutdown_blocks_new_issuance_witness :
    AnsStateManager.query_guard_for ansStShut = ⟨0, false⟩ ∧
    VagalBrake.execute_issue_with_brake
        (AnsStateManager.query_guard_for ansStShut) 7 (rep32 0) [] [] [] 0
        1000000 10000 500 "planner1" 1 (rep32 7) 1000000
      = Except.error VagusError.ANSBlocked :=
  C1_shutdown_blocks_new_issuance ansStShut 7 (rep32 0) [] [] [] 0 1000000
    10000 500 "planner1" 1 (rep32 7) 1000000 (by decide)

/-! ### C2: nonce uniqueness -/

/-- C2 counterexample.  Two Issue calls carrying the identical
(planner1, nonce 1) pair both succeed — the second is not rejected. -/
theorem C2_duplicate_nonce_counterexample :
    CapabilityIssuer.execute issuerBase 5 "executor1" issueMsg1
      = Except.ok issuerSt1 ∧
    (CapabilityIssuer.execute issuerSt1 6 "executor1" issueMsg1).isOk
      = true := by
  decide

/-- C2 amended (corrected).  The issuer binds intent_nonce to an underscore
and never reads it: the outcome of Issue is independent of the nonce, and
Issue never fails with NonceAlreadyUsed, so any number of accepted Intents
may share (planner, nonce). -/
theorem C2_issue_ignores_nonce (st : CapabilityIssuer.Storage) (now : Nat)
    (sender : String) (eid : Nat) (aid params env pre : List Nat)
    (nb na dur en : Nat) (planner : String) (n1 n2 : Nat) (hash : List Nat)
    (exp : Nat) :
    CapabilityIssuer.execute st now sender
        (CapabilityIssuer.ExecuteMsg.Issue eid aid params env pre nb na dur
          en planner n1 hash exp)
      = CapabilityIssuer.execute st now sender
        (CapabilityIssuer.ExecuteMsg.Issue eid aid params env pre nb na dur
          en planner n2 hash exp) ∧
    CapabilityIssuer.execute st now sender
        (CapabilityIssuer.ExecuteMsg.Issue eid aid params env pre nb na dur
          en planner n1 hash exp)
      ≠ Except.error VagusError.NonceAlreadyUsed := by
  constructor
  · rfl
  · intro hcontra
    simp only [CapabilityIssuer.execute] at hcontra
    by_cases hp : st.emergencyPaused
    · rw [if_pos hp] at hcontra
      simp at hcontra
    · rw [if_neg hp] at hcontra
      simp only [CapabilityIssuer.execute_issue] at hcontra
      by_cases h1 : sender ∉ st.authorizedExecutors
      · rw [if_pos h1] at hcontra
        simp at hcontra
      · rw [if_neg h1] at hcontra
        by_cases h2 : now < nb ∨ now > na
        · rw [if_pos h2] at hcontra
          simp at hcontra
        · rw [if_neg h2] at hcontra
          split at hcontra
          · rename_i e heq
            have he : e = VagusError.CircuitBreakerOpen :=
              CapabilityIssuer.check_circuit_breaker_error _ _ _ _ heq
            rw [he] at hcontra
            exact VagusError.noConfusion (Except.error.inj hcontra)
          · split at hcontra
            · rename_i e heq
              have he : e = VagusError.RateLimited :=
                CapabilityIssuer.check_rate_limit_error _ _ _ _ _ heq
              rw [he] at hcontra
              exact VagusError.noConfusion (Except.error.inj hcontra)
            · simp at hcontra

/-- Witness for C2 amended: the same issuer call with nonces 1 and 99. -/
theorem C2_issue_ignores_nonce_witness :
    CapabilityIssuer.execute issuerBase 5 "executor1"
        (CapabilityIssuer.ExecuteMsg.Issue 7 [] [] [] [] 0 1000000 10000 500
          "planner1" 1 (rep32 0) 1000000)
      = CapabilityIssuer.execute issuerBase 5 "executor1"
        (CapabilityIssuer.ExecuteMsg.Issue 7 [] [] [] [] 0 1000000 10000 500
          "planner1" 99 (rep32 0) 1000000) ∧
    CapabilityIssuer.execute issuerBase 5 "executor1"
        (CapabilityIssuer.ExecuteMsg.Issue 7 [] [] [] [] 0 1000000 10000 500
          "planner1" 1 (rep32 0) 1000000)
      ≠ Except.error VagusError.NonceAlreadyUsed :=
  C2_issue_ignores_nonce issuerBase 5 "executor1" 7 [] [] [] [] 0 1000000
    10000 500 "planner1" 1 99 (rep32 0) 1000000

/-! ### C5: circuit breaker -/

/-- The issuer with maxRequests 0 (every Issue fails RateLimited), breaker
threshold 1 and recovery 1. -/
def issuerStRL : CapabilityIssuer.Storage :=
  { issuerBase with
    globalRateLimit := ⟨60, 0⟩
    circuitBreakerThreshold := 1
    circuitBreakerRecovery := 1 }

/-- C5 counterexample.  With threshold 1 and timeout 300, the Issue
requests at t=0 and t=1 are consecutive failures (RateLimited rejections,
which the claim counts as breaker failures), so the claim requires the
t=2 request to fail with CircuitBreakerOpen (2 < nextAttemptTime); the
source instead fails it with RateLimited again — no code path ever records
a failure or moves a breaker to Open, and errors revert all writes. -/
theorem C5_breaker_stays_closed_counterexample :
    issuerStRL.circuitBreakerThreshold = 1 ∧
    issuerStRL.circuitBreakerTimeout = 300 ∧
    CapabilityIssuer.execute issuerStRL 0 "executor1" issueMsg1
      = Except.error VagusError.RateLimited ∧
    CapabilityIssuer.execute issuerStRL 1 "executor1" issueMsg1
      = Except.error VagusError.RateLimited ∧
    CapabilityIssuer.execute issuerStRL 2 "executor1" issueMsg1
      = Except.error VagusError.RateLimited ∧
    CapabilityIssuer.execute issuerStRL 2 "executor1" issueMsg1
      ≠ Except.error VagusError.CircuitBreakerOpen := by
  decide

/-- C5 amended (corrected).  The issuer never records failures and no code
path sets a breaker to Open: starting from any storage whose breakers are
all non-Open (instantiation starts with none at all), no ExecuteMsg ever
fails with CircuitBreakerOpen, and every successful execute preserves the
all-non-Open property; the Open/HalfOpen recovery logic is unreachable. -/
theorem C5_breaker_never_opens (st : CapabilityIssuer.Storage) (now : Nat)
    (sender : String) (msg : CapabilityIssuer.ExecuteMsg)
    (hinv : ∀ kv ∈ st.circuitBreakers,
      kv.2.state ≠ CapabilityIssuer.CircuitState.Open) :
    CapabilityIssuer.execute st now sender msg
      ≠ Except.error VagusError.CircuitBreakerOpen ∧
    (∀ st', CapabilityIssuer.execute st now sender msg = Except.ok st' →
      ∀ kv ∈ st'.circuitBreakers,
        kv.2.state ≠ CapabilityIssuer.CircuitState.Open) := by
  simp only [CapabilityIssuer.execute]
  by_cases hp : st.emergencyPaused
  · rw [if_pos hp]
    exact ⟨by simp, fun st' h => by simp at h⟩
  · rw [if_neg hp]
    cases msg
    · rename_i eid aid params env pre nb na dur en planner nonce hash exp
      dsimp only
      exact CapabilityIssuer.execute_issue_no_cbopen st now sender eid aid nb
        na planner hash exp hinv
    all_goals
      dsimp only
      simp only [CapabilityIssuer.execute_revoke,
        CapabilityIssuer.execute_set_reflex_arc,
        CapabilityIssuer.execute_set_rate_limit,
        CapabilityIssuer.execute_set_circuit_breaker_params,
        CapabilityIssuer.execute_emergency_pause,
        CapabilityIssuer.execute_emergency_unpause]
      repeat' split
      all_goals
        first
          | (refine ⟨by simp, fun st' h => ?_⟩
             rw [Except.ok.injEq] at h
             subst h
             exact hinv)
          | exact ⟨by simp, fun st' h => by simp at h⟩

/-- Witness for C5 amended: the fresh issuer (no breakers) issues once; no
CircuitBreakerOpen arises and the single breaker created is Closed. -/
theorem C5_breaker_never_opens_witness :
    CapabilityIssuer.execute issuerBase 5 "executor1" issueMsg1
      ≠ Except.error VagusError.CircuitBreakerOpen ∧
    ("7_", CapabilityIssuer.defaultBreaker).2.state
      ≠ CapabilityIssuer.CircuitState.Open :=
  ⟨(C5_breaker_never_opens issuerBase 5 "executor1" issueMsg1
      (by simp [issuerBase])).1,
   (C5_breaker_never_opens issuerBase 5 "executor1" issueMsg1
      (by simp [issuerBase])).2
     issuerSt1 (by decide) ("7_", CapabilityIssuer.defaultBreaker)
     (by decide)⟩

/-! ### C8: sliding-window rate limit -/

/-- The issuer with windowSize 60 and maxRequests 3, as in the spec's
rate-limit scenario. -/
def issuerStW : CapabilityIssuer.Storage :=
  { issuerBase with globalRateLimit := ⟨60, 3⟩ }

/-- After the Issue at t=0. -/
def issuerStW1 : CapabilityIssuer.Storage :=
  okOr issuerStW (CapabilityIssuer.execute issuerStW 0 "executor1" issueMsg1)

/-- After the Issue at t=10. -/
def issuerStW2 : CapabilityIssuer.Storage :=
  okOr issuerStW1
    (CapabilityIssuer.execute issuerStW1 10 "executor1" issueMsg1)

/-- After the Issue at t=20. -/
def issuerStW3 : CapabilityIssuer.Storage :=
  okOr issuerStW2
    (CapabilityIssuer.execute issuerStW2 20 "executor1" issueMsg1)

/-- C8 counterexample.  With windowSize 60 and maxRequests 3, the Issues at
t=0, 10, 20 succeed and the fourth Issue at t=30 ALSO succeeds, where the
claim requires it to fail with RateLimited: the prune keeps only
timestamps strictly greater than now minus windowSize (saturating), so the
t=0 timestamp is discarded as soon as t > 0 while now - windowSize
saturates to 0. -/
theorem C8_scenario_counterexample :
    CapabilityIssuer.execute issuerStW 0 "executor1" issueMsg1
      = Except.ok issuerStW1 ∧
    CapabilityIssuer.execute issuerStW1 10 "executor1" issueMsg1
      = Except.ok issuerStW2 ∧
    CapabilityIssuer.execute issuerStW2 20 "executor1" issueMsg1
      = Except.ok issuerStW3 ∧
    (CapabilityIssuer.execute issuerStW3 30 "executor1" issueMsg1).isOk
      = true := by
  decide

/-- C8 amended (corrected).  For an authorized, in-window Issue whose
breaker check passes, the call fails with RateLimited iff, after discarding
the recorded timestamps that are ≤ now - windowSize (saturating
subtraction — so a timestamp exactly windowSize old, or equal to 0 when
now < windowSize, is also discarded), at least maxRequests remain; and on
success the key's window becomes exactly the pruned list with now
appended, so only passing requests record their timestamp. -/
theorem C8_rate_limit_prune_boundary (st : CapabilityIssuer.Storage)
    (now : Nat) (sender : String) (eid : Nat)
    (aid params env pre : List Nat) (nb na dur en : Nat) (planner : String)
    (nonce : Nat) (hash : List Nat) (exp : Nat)
    (hpause : st.emergencyPaused = false)
    (hauth : sender ∈ st.authorizedExecutors)
    (hnb : nb ≤ now) (hna : now ≤ na)
    (hcb : ∀ kv ∈ st.circuitBreakers,
      kv.2.state ≠ CapabilityIssuer.CircuitState.Open) :
    (CapabilityIssuer.execute st now sender
        (CapabilityIssuer.ExecuteMsg.Issue eid aid params env pre nb na dur
          en planner nonce hash exp)
        = Except.error VagusError.RateLimited ↔
      (((mapGet st.rateLimitWindows
          (CapabilityIssuer.mkKey eid aid)).getD []).filter
        (fun ts => ts > now - st.globalRateLimit.window_size)).length
        ≥ st.globalRateLimit.max_requests) ∧
    (∀ st', CapabilityIssuer.execute st now sender
        (CapabilityIssuer.ExecuteMsg.Issue eid aid params env pre nb na dur
          en planner nonce hash exp) = Except.ok st' →
      st'.rateLimitWindows = mapPut st.rateLimitWindows
        (CapabilityIssuer.mkKey eid aid)
        ((((mapGet st.rateLimitWindows
            (CapabilityIssuer.mkKey eid aid)).getD []).filter
          (fun ts => ts > now - st.globalRateLimit.window_size)) ++ [now])) := by
  simp only [CapabilityIssuer.execute]
  rw [if_neg (by simp [hpause])]
  simp only [CapabilityIssuer.execute_issue]
  rw [if_neg (by simp [hauth])]
  rw [if_neg (by omega)]
  rw [CapabilityIssuer.check_circuit_breaker_ok_of_no_open _ _ _ hcb]
  dsimp only
  cases hr : CapabilityIssuer.check_rate_limit st.globalRateLimit
      st.rateLimitWindows (CapabilityIssuer.mkKey eid aid) now with
  | error e =>
    dsimp only
    have he : e = VagusError.RateLimited :=
      CapabilityIssuer.check_rate_limit_error _ _ _ _ _ hr
    subst he
    constructor
    · constructor
      · intro _
        exact (CapabilityIssuer.check_rate_limit_spec _ _ _ _).1.mp hr
      · intro _
        rfl
    · intro st' h
      simp at h
  | ok ws =>
    dsimp only
    constructor
    · constructor
      · intro hc
        simp at hc
      · intro hcount
        exfalso
        have hrl := (CapabilityIssuer.check_rate_limit_spec
          st.globalRateLimit st.rateLimitWindows
          (CapabilityIssuer.mkKey eid aid) now).1.mpr hcount
        rw [hr] at hrl
        simp at hrl
    · intro st' h
      rw [Except.ok.injEq] at h
      subst h
      dsimp only
      exact (CapabilityIssuer.check_rate_limit_spec _ _ _ _).2 ws hr

/-- Witness for C8 amended at the scenario's first call (t=0, empty
window): not rate limited, and the window becomes the singleton 0. -/
theorem C8_rate_limit_prune_boundary_witness :
    (CapabilityIssuer.execute issuerStW 0 "executor1"
        (CapabilityIssuer.ExecuteMsg.Issue 7 [] [] [] [] 0 1000000 10000 500
          "planner1" 1 (List.replicate 32 0) 1000000)
        = Except.error VagusError.RateLimited ↔
      (((mapGet issuerStW.rateLimitWindows
          (CapabilityIssuer.mkKey 7 [])).getD []).filter
        (fun ts => ts > 0 - issuerStW.globalRateLimit.window_size)).length
        ≥ issuerStW.globalRateLimit.max_requests) ∧
    issuerStW1.rateLimitWindows = mapPut issuerStW.rateLimitWindows
      (CapabilityIssuer.mkKey 7 [])
      ((((mapGet issuerStW.rateLimitWindows
          (CapabilityIssuer.mkKey 7 [])).getD []).filter
        (fun ts => ts > 0 - issuerStW.globalRateLimit.window_size)) ++ [0]) :=
  ⟨(C8_rate_limit_prune_boundary issuerStW 0 "executor1" 7 [] [] [] [] 0
      1000000 10000 500 "planner1" 1 (List.replicate 32 0) 1000000 rfl
      (by decide) (by decide) (by decide)
      (by simp [issuerStW, issuerBase])).1,
   (C8_rate_limit_prune_boundary issuerStW 0 "executor1" 7 [] [] [] [] 0
      1000000 10000 500 "planner1" 1 (List.replicate 32 0) 1000000 rfl
      (by decide) (by decide) (by decide)
      (by simp [issuerStW, issuerBase])).2
     issuerStW1 (by decide)⟩

end Vagus
